import Mathlib

/-!
Shallow embedding of `src/main.py` of the kcs_hs_chatbot repository:
the real-time process logger (`RealTimeProcessLogger`), the category
router and query orchestrator (`process_query_with_real_logging`), and
the session conversation state (chat history, context blob, submit
handler and reset button).

Modelling conventions:
* Wall-clock time is modelled as a natural number of milliseconds.  Each
  call of Python `time.time()` / `datetime.now()` consumes the head of an
  explicit clock stream (`List Nat`); one `log_actual` call consumes one
  clock value, used for both its timestamp and its elapsed time.
* Python exceptions are modelled with `Except Err`, where `Err` carries
  `str(e)` and `type(e).__name__`.
* The external collaborators from `utils` (classifier, the four search
  handlers, HS-code extraction, raw-manual retrieval, text cleaning) are
  abstract functions gathered in a `Handlers` record; the cached
  `HSDataManager` resource is opaque and treated as baked into those
  functions.  Every external call is recorded in an observable call
  trace so that claims about which collaborators run can be stated.
* The Streamlit placeholder written by `update_display` is modelled as
  the `displayed` string field of the logger.
-/

/-- One entry of the real-time process log (the dict built in
`RealTimeProcessLogger.log_actual`). -/
structure LogEntry where
  time : String
  elapsed : String
  level : String
  message : String
  data : Option String
deriving Repr, DecidableEq

/-- State of `RealTimeProcessLogger`: the full entry list, the
construction time (`self.start_time`, milliseconds) and the currently
displayed markdown text (the placeholder contents). -/
structure RealTimeProcessLogger where
  logs : List LogEntry
  start_time : Nat
  displayed : String
deriving Repr, DecidableEq

/-- Two-digit zero padding. -/
def pad2 (n : Nat) : String :=
  if n < 10 then "0" ++ toString n else toString n

/-- Three-digit zero padding. -/
def pad3 (n : Nat) : String :=
  if n < 10 then "00" ++ toString n
  else if n < 100 then "0" ++ toString n
  else toString n

/-- Python `datetime.now().strftime("%H:%M:%S.%f")[:-3]` from a millisecond
wall-clock value. -/
def formatClock (ms : Nat) : String :=
  let d := ms % 86400000
  pad2 (d / 3600000) ++ ":" ++ pad2 (d % 3600000 / 60000) ++ ":" ++
    pad2 (d % 60000 / 1000) ++ "." ++ pad3 (d % 1000)

/-- Python `f"{x:.2f}s"` for a duration given in milliseconds
(rounded to hundredths of a second). -/
def formatElapsed (ms : Nat) : String :=
  let h := (ms + 5) / 10
  toString (h / 100) ++ "." ++ pad2 (h % 100) ++ "s"

/-- The fixed icon table of `update_display`
(`icons.get(log["level"], "📝")`). -/
def icons (level : String) : String :=
  if level = "INFO" then "ℹ️"
  else if level = "SUCCESS" then "✅"
  else if level = "ERROR" then "❌"
  else if level = "DATA" then "📊"
  else if level = "AI" then "🤖"
  else if level = "SEARCH" then "🔍"
  else "📝"

/-- One rendered log line of `update_display`; the data segment follows
Python truthiness (`if log["data"]`): it is dropped both for `None` and
for an empty string. -/
def formatLogLine (log : LogEntry) : String :=
  let data_str :=
    match log.data with
    | some d => if d = "" then "" else " | " ++ d
    | none => ""
  "`" ++ log.time ++ "` `+" ++ log.elapsed ++ "` " ++ icons log.level ++
    " " ++ log.message ++ data_str ++ "\n\n"

/-- Method `update_display`: rebuilds the placeholder text from the last 8
entries (`self.logs[-8:]`). -/
def RealTimeProcessLogger.update_display (l : RealTimeProcessLogger) :
    RealTimeProcessLogger :=
  { l with displayed :=
      String.join ((l.logs.drop (l.logs.length - 8)).map formatLogLine) }

/-- Method `log_actual(level, message, data)` at wall-clock time `now`:
appends one entry stamped with the current time and the time elapsed
since construction, then re-renders the display. -/
def RealTimeProcessLogger.log_actual (l : RealTimeProcessLogger)
    (now : Nat) (level message : String) (data : Option String) :
    RealTimeProcessLogger :=
  let entry : LogEntry :=
    { time := formatClock now
      elapsed := formatElapsed (now - l.start_time)
      level := level
      message := message
      data := data }
  RealTimeProcessLogger.update_display { l with logs := l.logs ++ [entry] }

/-- Constructor `RealTimeProcessLogger.__init__` at construction time `now`: empty
log list, empty placeholder, `start_time` recorded. -/
def RealTimeProcessLogger.init (now : Nat) : RealTimeProcessLogger :=
  { logs := [], start_time := now, displayed := "" }

/-- Method `clear()`: empties the entry list and the placeholder;
`start_time` is untouched. -/
def RealTimeProcessLogger.clear (l : RealTimeProcessLogger) :
    RealTimeProcessLogger :=
  { l with logs := [], displayed := "" }

/-- The observable (clock-independent) event trace of a logger:
level, message and data of each entry in order. -/
def RealTimeProcessLogger.events (l : RealTimeProcessLogger) :
    List (String × String × Option String) :=
  l.logs.map (fun e => (e.level, e.message, e.data))

/-- A Python exception: `str(e)` and `type(e).__name__`. -/
structure Err where
  msg : String
  ename : String
deriving Repr, DecidableEq

/-- The external collaborators imported from `utils` (plus the cached
`HSDataManager`, baked into each of them).  Each fallible call returns
`Except Err`.  `handle_hs_manual_with_parallel_search` receives the
logger and returns it (possibly extended with its own sub-events) both
on success and on failure. -/
structure Handlers where
  classify_question : String → Except Err String
  handle_web_search : String → String → Except Err String
  handle_hs_classification_cases : String → String → Except Err String
  handle_overseas_hs : String → String → Except Err String
  handle_hs_manual_with_parallel_search :
    String → String → RealTimeProcessLogger →
      Except (Err × RealTimeProcessLogger) (String × RealTimeProcessLogger)
  extract_hs_codes : String → Except Err (List String)
  get_hs_explanations : List String → Except Err String
  clean_text : String → String

/-- The five-entry `category_mapping` dict of
`process_query_with_real_logging` (lines 138–144). -/
def category_mapping (category : String) : Option String :=
  if category = "웹검색" then some "web_search"
  else if category = "국내HS분류사례 검색" then some "hs_classification"
  else if category = "해외HS분류사례검색" then some "overseas_hs"
  else if category = "HS해설서분석" then some "hs_manual"
  else if category = "HS해설서원문검색" then some "hs_manual_raw"
  else none

/-- The routing decision of lines 131–146: `auto` delegates to the
external classifier on the question alone; any other label is looked up
in `category_mapping` with default `"hs_classification"`. -/
def resolve_category (classify : String → Except Err String)
    (category question : String) : Except Err String :=
  if category = "AI자동분류" then classify question
  else .ok ((category_mapping category).getD "hs_classification")

/-- Orchestrator-side running state during one
`process_query_with_real_logging` call: the logger, the remaining clock
stream with the last time read, and the trace of external calls made
so far. -/
structure PS where
  logger : RealTimeProcessLogger
  clock : List Nat
  last : Nat
  calls : List String
deriving Repr

/-- One `time.time()` / `datetime.now()` read: pops the clock stream
(repeating the last value when exhausted). -/
def PS.tick (s : PS) : Nat × PS :=
  match s.clock with
  | [] => (s.last, s)
  | t :: ts => (t, { s with clock := ts, last := t })

/-- A `logger.log_actual(...)` call (one clock read). -/
def PS.log (s : PS) (level message : String) (data : Option String) : PS :=
  { (s.tick).2 with
      logger := ((s.tick).2).logger.log_actual (s.tick).1 level message data }

/-- Records one external-collaborator invocation in the call trace. -/
def PS.call (s : PS) (cname : String) : PS :=
  { s with calls := s.calls ++ [cname] }

/-- Line 118, `logger = RealTimeProcessLogger(log_container)`: one
clock read for `self.start_time = time.time()`. -/
def PS.start (clock0 : List Nat) : PS :=
  let s0 : PS :=
    { logger := RealTimeProcessLogger.init 0, clock := clock0, last := 0,
      calls := [] }
  { (s0.tick).2 with logger := RealTimeProcessLogger.init (s0.tick).1 }

/-- The `except Exception as e` block (lines 202–205): two ERROR
entries, then the same exception re-raised. -/
def raiseLogged (s : PS) (e : Err) : Except Err String × PS :=
  let s := s.log "ERROR" ("Exception occurred: " ++ e.msg) none
  let s := s.log "ERROR" ("Error type: " ++ e.ename) none
  (.error e, s)

/-- The Python 3 `UnboundLocalError` raised by `len(answer)` on
line 194 when no dispatch branch assigned `answer`. -/
def unboundLocalAnswer : Err :=
  { msg := "local variable answer referenced before assignment"
    ename := "UnboundLocalError" }

/-- The strategy dispatch (lines 148–191): exactly one branch per known
strategy tag; `.ok none` models falling through the `if/elif` chain with
`answer` left unassigned. -/
def dispatch_strategy (h : Handlers) (context user_input q_type : String)
    (s : PS) : Except Err (Option String) × PS :=
  if q_type = "web_search" then
    let s := s.log "SEARCH" "Initiating Google Search API call..." none
    let ai_start := (s.tick).1
    let s := (s.tick).2
    let s := s.call "handle_web_search"
    match h.handle_web_search user_input context with
    | .error e => (.error e, s)
    | .ok r =>
      let answer := "\n\n +++ 웹검색 실시 +++\n\n" ++ r
      let ai2 := (s.tick).1
      let s := (s.tick).2
      let s := s.log "SUCCESS" "Web search completed"
        (some (formatElapsed (ai2 - ai_start) ++ ", " ++
          toString answer.length ++ " chars"))
      (.ok (some answer), s)
  else if q_type = "hs_classification" then
    let s := s.log "AI" "Starting domestic HS classification search..." none
    let ai_start := (s.tick).1
    let s := (s.tick).2
    let s := s.call "handle_hs_classification_cases"
    match h.handle_hs_classification_cases user_input context with
    | .error e => (.error e, s)
    | .ok r =>
      let answer := "\n\n +++ HS 분류사례 검색 실시 +++\n\n" ++ r
      let ai2 := (s.tick).1
      let s := (s.tick).2
      let s := s.log "SUCCESS" "Domestic HS classification completed"
        (some (formatElapsed (ai2 - ai_start) ++ ", " ++
          toString answer.length ++ " chars"))
      (.ok (some answer), s)
  else if q_type = "overseas_hs" then
    let s := s.log "AI" "Starting overseas HS classification search..." none
    let ai_start := (s.tick).1
    let s := (s.tick).2
    let s := s.call "handle_overseas_hs"
    match h.handle_overseas_hs user_input context with
    | .error e => (.error e, s)
    | .ok r =>
      let answer := "\n\n +++ 해외 HS 분류 검색 실시 +++\n\n" ++ r
      let ai2 := (s.tick).1
      let s := (s.tick).2
      let s := s.log "SUCCESS" "Overseas HS classification completed"
        (some (formatElapsed (ai2 - ai_start) ++ ", " ++
          toString answer.length ++ " chars"))
      (.ok (some answer), s)
  else if q_type = "hs_manual" then
    let s := s.log "AI" "Starting enhanced parallel HS manual analysis..." none
    let ai_start := (s.tick).1
    let s := (s.tick).2
    let s := s.call "handle_hs_manual_with_parallel_search"
    match h.handle_hs_manual_with_parallel_search user_input context s.logger with
    | .error (e, lg) => (.error e, { s with logger := lg })
    | .ok (r, lg) =>
      let s := { s with logger := lg }
      let answer := "\n\n +++ HS 해설서 분석 실시 (병렬 검색) +++ \n\n" ++ r
      let ai2 := (s.tick).1
      let s := (s.tick).2
      let s := s.log "SUCCESS" "Enhanced HS manual analysis completed"
        (some (formatElapsed (ai2 - ai_start) ++ ", " ++
          toString answer.length ++ " chars"))
      (.ok (some answer), s)
  else if q_type = "hs_manual_raw" then
    let s := s.log "SEARCH" "Extracting HS codes..." none
    let s := s.call "extract_hs_codes"
    match h.extract_hs_codes user_input with
    | .error e => (.error e, s)
    | .ok hs_codes =>
      if hs_codes.isEmpty then
        let s := s.log "ERROR" "No valid HS codes found in input" none
        (.ok (some "HS 코드를 찾을 수 없습니다. 4자리 HS 코드를 입력해주세요."), s)
      else
        let s := s.log "SUCCESS"
          ("Found " ++ toString hs_codes.length ++ " HS codes")
          (some (String.intercalate ", " hs_codes))
        let s := s.log "DATA" "Retrieving raw HS explanations..." none
        let raw_start := (s.tick).1
        let s := (s.tick).2
        let s := s.call "get_hs_explanations"
        match h.get_hs_explanations hs_codes with
        | .error e => (.error e, s)
        | .ok rawText =>
          let s := s.call "clean_text"
          let raw_answer := h.clean_text rawText
          let raw2 := (s.tick).1
          let s := (s.tick).2
          let answer := "\n\n +++ HS 해설서 원문 검색 실시 +++ \n\n" ++ raw_answer
          let s := s.log "SUCCESS" "Raw HS manual retrieved"
            (some (formatElapsed (raw2 - raw_start) ++ ", " ++
              toString raw_answer.length ++ " chars"))
          (.ok (some answer), s)
  else (.ok none, s)

/-- Function `process_query_with_real_logging(user_input)` (lines 114–205), with
the session category and context passed explicitly and the wall clock
as a stream.  Returns the Python return value (or the re-raised
exception) together with the final orchestrator state. -/
def process_query_with_real_logging (h : Handlers)
    (selected_category context user_input : String) (clock0 : List Nat) :
    Except Err String × PS :=
  let s := PS.start clock0
  let s := s.log "INFO" "Query processing started"
    (some ("Input length: " ++ toString user_input.length))
  let st1 := (s.tick).1
  let s := (s.tick).2
  let s := s.call "get_hs_manager"
  let t2 := (s.tick).1
  let s := (s.tick).2
  let s := s.log "SUCCESS" "HSDataManager loaded"
    (some (formatElapsed (t2 - st1)))
  let category := selected_category
  let s := s.log "INFO" "Category selected" (some category)
  let classified : Except Err String × PS :=
    if category = "AI자동분류" then
      let s := s.log "AI" "Starting LLM question classification..." none
      let tc := (s.tick).1
      let s := (s.tick).2
      let s := s.call "classify_question"
      match h.classify_question user_input with
      | .error e => (.error e, s)
      | .ok q_type =>
        let tc2 := (s.tick).1
        let s := (s.tick).2
        let s := s.log "SUCCESS" "LLM classification completed"
          (some (q_type ++ " in " ++ formatElapsed (tc2 - tc)))
        (.ok q_type, s)
    else
      let q_type := (category_mapping category).getD "hs_classification"
      let s := s.log "INFO" "Question type mapped" (some q_type)
      (.ok q_type, s)
  match classified with
  | (.error e, s) => raiseLogged s e
  | (.ok q_type, s) =>
    let answer_start := (s.tick).1
    let s := (s.tick).2
    match dispatch_strategy h context user_input q_type s with
    | (.error e, s) => raiseLogged s e
    | (.ok answerOpt, s) =>
      let ta := (s.tick).1
      let s := (s.tick).2
      match answerOpt with
      | none => raiseLogged s unboundLocalAnswer
      | some answer =>
        let s := s.log "SUCCESS" "Answer generation completed"
          (some (formatElapsed (ta - answer_start) ++ ", " ++
            toString answer.length ++ " chars"))
        let tt := (s.tick).1
        let s := (s.tick).2
        let s := s.log "INFO" "Process completed successfully"
          (some ("Total time: " ++ formatElapsed (tt - s.logger.start_time)))
        (.ok answer, s)

/-- One chat turn (`{"role": ..., "content": ...}`). -/
structure Turn where
  role : String
  content : String
deriving Repr, DecidableEq

/-- The session state owned by Streamlit: chat transcript, context blob
and the selected category label. -/
structure SessionState where
  chat_history : List Turn
  context : String
  selected_category : String
deriving Repr, DecidableEq

/-- The initial context blob (lines 58–74). -/
def initial_context : String :=
  "당신은 HS 품목분류 전문가로서 관세청에서 오랜 경력을 가진 전문가입니다. 사용자가 물어보는 품목에 대해 아래 네 가지 유형 중 하나로 질문을 분류하여 답변해주세요.\n\n질문 유형:\n1. 웹 검색(Web Search): 물품개요, 용도, 기술개발, 무역동향 등 일반 정보 탐색이 필요한 경우.\n2. HS 분류 검색(HS Classification Search): HS 코드, 품목분류, 관세, 세율 등 HS 코드 관련 정보가 필요한 경우.\n3. HS 해설서 분석(HS Manual Analysis): HS 해설서 본문 심층 분석이 필요한 경우.\n4. 해외 HS 분류(Overseas HS Classification): 해외(미국/EU) HS 분류 사례가 필요한 경우.\n\n중요 지침:\n1. 사용자가 질문하는 물품에 대해 관련어, 유사품목, 대체품목도 함께 고려하여 가장 적합한 HS 코드를 찾아주세요.\n2. 품목의 성분, 용도, 가공상태 등을 고려하여 상세히 설명해주세요.\n3. 사용자가 특정 HS code를 언급하며 질문하는 경우, 답변에 해당 HS code 해설서 분석 내용을 포함하여 답변해주세요.\n4. 관련 규정이나 판례가 있다면 함께 제시해주세요.\n5. 답변은 간결하면서도 전문적으로 제공해주세요.\n\n지금까지의 대화:\n"

/-- The context literal written by the new-chat reset handler
(lines 254–270), kept as its own copy of the literal so that its
equality with `initial_context` is a provable fact, not a definition. -/
def reset_context : String :=
  "당신은 HS 품목분류 전문가로서 관세청에서 오랜 경력을 가진 전문가입니다. 사용자가 물어보는 품목에 대해 아래 네 가지 유형 중 하나로 질문을 분류하여 답변해주세요.\n\n질문 유형:\n1. 웹 검색(Web Search): 물품개요, 용도, 기술개발, 무역동향 등 일반 정보 탐색이 필요한 경우.\n2. HS 분류 검색(HS Classification Search): HS 코드, 품목분류, 관세, 세율 등 HS 코드 관련 정보가 필요한 경우.\n3. HS 해설서 분석(HS Manual Analysis): HS 해설서 본문 심층 분석이 필요한 경우.\n4. 해외 HS 분류(Overseas HS Classification): 해외(미국/EU) HS 분류 사례가 필요한 경우.\n\n중요 지침:\n1. 사용자가 질문하는 물품에 대해 관련어, 유사품목, 대체품목도 함께 고려하여 가장 적합한 HS 코드를 찾아주세요.\n2. 품목의 성분, 용도, 가공상태 등을 고려하여 상세히 설명해주세요.\n3. 사용자가 특정 HS code를 언급하며 질문하는 경우, 답변에 해당 HS code 해설서 분석 내용을 포함하여 답변해주세요.\n4. 관련 규정이나 판례가 있다면 함께 제시해주세요.\n5. 답변은 간결하면서도 전문적으로 제공해주세요.\n\n지금까지의 대화:\n"

/-- Session-state initialization (lines 50–74). -/
def initSession : SessionState :=
  { chat_history := [], context := initial_context,
    selected_category := "AI자동분류" }

/-- The new-chat reset button handler (lines 251–271): clears the
transcript and rewrites the context blob with the reset literal. -/
def resetChat (s : SessionState) : SessionState :=
  { s with chat_history := [], context := reset_context }

/-- The `query_form` submit handler (lines 325–340): when the input is
non-empty after stripping, runs the orchestrator; on success appends the
user and assistant turns and extends the context blob; on a raised
failure (caught and shown as `st.error`) the session state is left
unchanged.  Returns the new session state and, when the orchestrator
ran, its result and final state. -/
def query_form_submit (h : Handlers) (s : SessionState)
    (clock0 : List Nat) (user_input : String) :
    SessionState × Option (Except Err String × PS) :=
  if user_input ≠ "" ∧ user_input.data.any (fun c => !c.isWhitespace) then
    match process_query_with_real_logging h s.selected_category
        s.context user_input clock0 with
    | (.ok answer, ps) =>
      ({ s with
          chat_history := s.chat_history ++
            [{ role := "user", content := user_input },
             { role := "assistant", content := answer }]
          context := s.context ++ "\n사용자: " ++ user_input ++
            "\n품목분류 전문가: " ++ answer ++ "\n" },
       some (.ok answer, ps))
    | (.error e, ps) => (s, some (.error e, ps))
  else (s, none)

/-- Replaying a list of `log_actual` calls (time, level, message, data)
against a logger; used to quantify over arbitrary `record` histories. -/
def applyLogs (l : RealTimeProcessLogger) :
    List (Nat × String × String × Option String) → RealTimeProcessLogger
  | [] => l
  | c :: cs => applyLogs (l.log_actual c.1 c.2.1 c.2.2.1 c.2.2.2) cs

/-- The display invariant maintained by the logger: the placeholder
holds the render of the last 8 entries. -/
def Rendered (l : RealTimeProcessLogger) : Prop :=
  l.displayed =
    String.join ((l.logs.drop (l.logs.length - 8)).map formatLogLine)

/-- Concrete demo collaborators: every call succeeds; extraction finds
the code 8471 exactly in the demo input. -/
def okHandlers : Handlers :=
  { classify_question := fun _ => .ok "overseas_hs"
    handle_web_search := fun _ _ => .ok "W"
    handle_hs_classification_cases := fun _ _ => .ok "C"
    handle_overseas_hs := fun _ _ => .ok "O"
    handle_hs_manual_with_parallel_search := fun _ _ lg => .ok ("M", lg)
    extract_hs_codes := fun q => .ok (if q = "8471 노트북" then ["8471"] else [])
    get_hs_explanations := fun _ => .ok "RAW"
    clean_text := fun t => t }

/-- Demo collaborators whose classifier returns a tag outside the five
known strategy tags. -/
def mysteryHandlers : Handlers :=
  { okHandlers with classify_question := fun _ => .ok "general_question" }

/-- A demo network failure. -/
def testErr : Err := { msg := "connection refused", ename := "ConnectionError" }

/-- Demo collaborators that all raise `testErr`. -/
def failHandlers : Handlers :=
  { classify_question := fun _ => .ok "web_search"
    handle_web_search := fun _ _ => .error testErr
    handle_hs_classification_cases := fun _ _ => .error testErr
    handle_overseas_hs := fun _ _ => .error testErr
    handle_hs_manual_with_parallel_search := fun _ _ lg => .error (testErr, lg)
    extract_hs_codes := fun _ => .error testErr
    get_hs_explanations := fun _ => .error testErr
    clean_text := fun t => t }

/-- A demo session pointed at the web-search category. -/
def failSession : SessionState :=
  { chat_history := [], context := "ctx", selected_category := "웹검색" }

/-- A demo session left in the default auto-classification mode. -/
def autoFailSession : SessionState :=
  { chat_history := [], context := "ctx", selected_category := "AI자동분류" }

/-- A transcript made of complete (user, assistant) exchanges, in
order. -/
def pairsToTurns : List (String × String) → List Turn
  | [] => []
  | (u, a) :: rest =>
    { role := "user", content := u } ::
      { role := "assistant", content := a } :: pairsToTurns rest

/-- The transcript invariant: the chat history is a concatenation of
user/assistant exchange pairs. -/
def WellPaired (l : List Turn) : Prop := ∃ ps, l = pairsToTurns ps


/-! ### Helper lemmas about the orchestrator state operations -/

@[simp] theorem PS_tick_logger (s : PS) : ((PS.tick s).2).logger = s.logger := by
  rcases s with ⟨lg, clk, la, cl⟩
  cases clk <;> rfl

@[simp] theorem PS_tick_calls (s : PS) : ((PS.tick s).2).calls = s.calls := by
  rcases s with ⟨lg, clk, la, cl⟩
  cases clk <;> rfl

@[simp] theorem PS_call_logger (s : PS) (c : String) :
    (PS.call s c).logger = s.logger := rfl

@[simp] theorem PS_call_calls (s : PS) (c : String) :
    (PS.call s c).calls = s.calls ++ [c] := rfl

@[simp] theorem log_actual_logs (l : RealTimeProcessLogger) (t : Nat)
    (lv m : String) (d : Option String) :
    (l.log_actual t lv m d).logs =
      l.logs ++ [⟨formatClock t, formatElapsed (t - l.start_time), lv, m, d⟩] := rfl

@[simp] theorem log_actual_start_time (l : RealTimeProcessLogger) (t : Nat)
    (lv m : String) (d : Option String) :
    (l.log_actual t lv m d).start_time = l.start_time := rfl

@[simp] theorem events_log_actual (l : RealTimeProcessLogger) (t : Nat)
    (lv m : String) (d : Option String) :
    (l.log_actual t lv m d).events = l.events ++ [(lv, m, d)] := by
  simp [RealTimeProcessLogger.events, RealTimeProcessLogger.log_actual,
    RealTimeProcessLogger.update_display]

@[simp] theorem PS_log_events (s : PS) (lv m : String) (d : Option String) :
    (PS.log s lv m d).logger.events = s.logger.events ++ [(lv, m, d)] := by
  rcases s with ⟨lg, clk, la, cl⟩
  cases clk <;>
    simp [PS.log, PS.tick, RealTimeProcessLogger.events,
      RealTimeProcessLogger.log_actual, RealTimeProcessLogger.update_display]

@[simp] theorem PS_log_calls (s : PS) (lv m : String) (d : Option String) :
    (PS.log s lv m d).calls = s.calls := by
  rcases s with ⟨lg, clk, la, cl⟩
  cases clk <;> rfl

@[simp] theorem PS_start_events (c : List Nat) :
    (PS.start c).logger.events = [] := by
  cases c <;> rfl

@[simp] theorem PS_start_calls (c : List Nat) : (PS.start c).calls = [] := by
  cases c <;> rfl

theorem applyLogs_length (cs : List (Nat × String × String × Option String))
    (l : RealTimeProcessLogger) :
    (applyLogs l cs).logs.length = l.logs.length + cs.length := by
  induction cs generalizing l with
  | nil => simp [applyLogs]
  | cons c cs ih => simp [applyLogs, ih]; omega

theorem applyLogs_start_time
    (cs : List (Nat × String × String × Option String))
    (l : RealTimeProcessLogger) :
    (applyLogs l cs).start_time = l.start_time := by
  induction cs generalizing l with
  | nil => rfl
  | cons c cs ih => simp [applyLogs, ih]

theorem rendered_log_actual (l : RealTimeProcessLogger) (t : Nat)
    (lv m : String) (d : Option String) : Rendered (l.log_actual t lv m d) := by
  simp [Rendered, RealTimeProcessLogger.log_actual,
    RealTimeProcessLogger.update_display]

theorem rendered_init (t0 : Nat) : Rendered (RealTimeProcessLogger.init t0) := rfl

theorem rendered_clear (l : RealTimeProcessLogger) : Rendered l.clear := rfl

theorem rendered_applyLogs
    (cs : List (Nat × String × String × Option String))
    (l : RealTimeProcessLogger) (hl : Rendered l) :
    Rendered (applyLogs l cs) := by
  induction cs generalizing l with
  | nil => exact hl
  | cons c cs ih => exact ih _ (rendered_log_actual _ _ _ _ _)

/-! ### Claim theorems -/

/-- C1: for every non-auto category label the router returns the
strategy tag given by the fixed five-entry table
(웹검색→web_search, 국내HS분류사례 검색→hs_classification,
해외HS분류사례검색→overseas_hs, HS해설서분석→hs_manual,
HS해설서원문검색→hs_manual_raw); every label outside the table maps to
`hs_classification`; and the result is independent of the question
text. -/
theorem C1_router_fixed_table (classify : String → Except Err String)
    (category q1 q2 : String) (hcat : category ≠ "AI자동분류") :
    resolve_category classify category q1 =
      resolve_category classify category q2 ∧
    resolve_category classify category q1 =
      .ok ((category_mapping category).getD "hs_classification") ∧
    category_mapping "웹검색" = some "web_search" ∧
    category_mapping "국내HS분류사례 검색" = some "hs_classification" ∧
    category_mapping "해외HS분류사례검색" = some "overseas_hs" ∧
    category_mapping "HS해설서분석" = some "hs_manual" ∧
    category_mapping "HS해설서원문검색" = some "hs_manual_raw" ∧
    (category_mapping category = none →
      resolve_category classify category q1 = .ok "hs_classification") := by
  refine ⟨by simp [resolve_category, hcat], by simp [resolve_category, hcat],
    by decide, by decide, by decide, by decide, by decide,
    fun hnone => by simp [resolve_category, hcat, hnone]⟩

/-- Witness for C1 at the concrete label 웹검색. -/
theorem C1_router_fixed_table_witness :
    resolve_category (fun _ => Except.ok "x") "웹검색" "qa" =
      Except.ok "web_search" := by
  have h := C1_router_fixed_table (fun _ => Except.ok "x") "웹검색" "qa" "qb"
    (by decide)
  exact h.2.1.trans (by rfl)

/-- C3: after any sequence of `record` calls since construction or the
last reset, the display is built from only the last 8 entries (so at
most 8 are shown), while the full entry list holds exactly one entry
per call. -/
theorem C3_render_tail_full_list (t0 : Nat) (l0 : RealTimeProcessLogger)
    (cs : List (Nat × String × String × Option String)) :
    (applyLogs (RealTimeProcessLogger.init t0) cs).logs.length = cs.length ∧
    (applyLogs l0.clear cs).logs.length = cs.length ∧
    (applyLogs (RealTimeProcessLogger.init t0) cs).displayed =
      String.join
        (((applyLogs (RealTimeProcessLogger.init t0) cs).logs.drop
          ((applyLogs (RealTimeProcessLogger.init t0) cs).logs.length - 8)).map
          formatLogLine) ∧
    ((applyLogs (RealTimeProcessLogger.init t0) cs).logs.drop
      ((applyLogs (RealTimeProcessLogger.init t0) cs).logs.length - 8)).length
      ≤ 8 := by
  refine ⟨?_, ?_, rendered_applyLogs cs _ (rendered_init t0), ?_⟩
  · simpa [RealTimeProcessLogger.init] using
      applyLogs_length cs (RealTimeProcessLogger.init t0)
  · simpa [RealTimeProcessLogger.clear] using applyLogs_length cs l0.clear
  · rw [List.length_drop]
    omega

/-- C5: the new-chat reset restores the context blob to byte-for-byte
equality with the initialization preamble (the literals written at
lines 58–74 and 254–270 are the same string) and empties the
transcript. -/
theorem C5_reset_restores_preamble (s : SessionState) :
    (resetChat s).context = initial_context ∧
    (resetChat s).chat_history = [] ∧
    reset_context = initial_context :=
  ⟨rfl, rfl, rfl⟩

/-- C7: `clear` empties the entry list and the displayed output but
does not move the elapsed-time origin: a `record` call after `clear`
still measures its elapsed time from the construction time `t0`, not
from the reset. -/
theorem C7_clear_keeps_time_origin (t0 t : Nat)
    (cs : List (Nat × String × String × Option String))
    (lv m : String) (d : Option String) :
    ((applyLogs (RealTimeProcessLogger.init t0) cs).clear).logs = [] ∧
    ((applyLogs (RealTimeProcessLogger.init t0) cs).clear).displayed = "" ∧
    ((applyLogs (RealTimeProcessLogger.init t0) cs).clear).start_time = t0 ∧
    (((applyLogs (RealTimeProcessLogger.init t0) cs).clear).log_actual
        t lv m d).logs =
      [⟨formatClock t, formatElapsed (t - t0), lv, m, d⟩] := by
  have hst := applyLogs_start_time cs (RealTimeProcessLogger.init t0)
  refine ⟨rfl, rfl, ?_, ?_⟩
  · simpa [RealTimeProcessLogger.clear, RealTimeProcessLogger.init] using hst
  · have hst2 :
        (applyLogs { logs := [], start_time := t0, displayed := "" } cs).start_time
          = t0 := by
      simpa [RealTimeProcessLogger.init] using hst
    simp [RealTimeProcessLogger.clear, RealTimeProcessLogger.init,
      RealTimeProcessLogger.log_actual, RealTimeProcessLogger.update_display,
      hst2]

/-- C8: every rendered log line is built as the backtick-quoted wall
time, the backtick-quoted elapsed time prefixed with +, the icon from
the fixed kind table (INFO→ℹ️, SUCCESS→✅, ERROR→❌, DATA→📊, AI→🤖,
SEARCH→🔍, anything else→📝), the message, and a data segment that is
omitted when the entry has no data. -/
theorem C8_line_format (l : RealTimeProcessLogger) (e : LogEntry)
    (lv : String) :
    l.update_display.displayed =
      String.join ((l.logs.drop (l.logs.length - 8)).map formatLogLine) ∧
    (e.data = none →
      formatLogLine e =
        "`" ++ e.time ++ "` `+" ++ e.elapsed ++ "` " ++ icons e.level ++
          " " ++ e.message ++ "\n\n") ∧
    (∀ d : String, d ≠ "" →
      formatLogLine { e with data := some d } =
        "`" ++ e.time ++ "` `+" ++ e.elapsed ++ "` " ++ icons e.level ++
          " " ++ e.message ++ " | " ++ d ++ "\n\n") ∧
    icons "INFO" = "ℹ️" ∧ icons "SUCCESS" = "✅" ∧ icons "ERROR" = "❌" ∧
    icons "DATA" = "📊" ∧ icons "AI" = "🤖" ∧ icons "SEARCH" = "🔍" ∧
    (lv ≠ "INFO" → lv ≠ "SUCCESS" → lv ≠ "ERROR" → lv ≠ "DATA" →
      lv ≠ "AI" → lv ≠ "SEARCH" → icons lv = "📝") := by
  refine ⟨rfl, ?_, ?_, by decide, by decide, by decide, by decide, by decide,
    by decide, ?_⟩
  · intro hd
    simp [formatLogLine, hd, String.append_assoc, String.append_empty]
  · intro d hd
    simp [formatLogLine, hd, String.append_assoc]
  · intro h1 h2 h3 h4 h5 h6
    simp [icons, h1, h2, h3, h4, h5, h6]

/-- Witness for C8: the default icon at the unknown kind WARN. -/
theorem C8_line_format_witness : icons "WARN" = "📝" :=
  (C8_line_format (RealTimeProcessLogger.init 0)
      ⟨"00:00:00.000", "0.00s", "INFO", "m", none⟩ "WARN").2.2.2.2.2.2.2.2.2
    (by decide) (by decide) (by decide) (by decide) (by decide) (by decide)

/-- C4: under category HS해설서원문검색 (hs_manual_raw), when code
extraction yields no codes the orchestrator returns the fixed no-codes
message (no banner), logs exactly one ERROR entry, does not raise, and
never invokes the manual-retrieval collaborator
(`get_hs_explanations` / `clean_text` are absent from the call
trace). -/
theorem C4_raw_no_codes (h : Handlers) (context input : String)
    (clock : List Nat) (hex : h.extract_hs_codes input = .ok []) :
    (process_query_with_real_logging h "HS해설서원문검색" context input
        clock).1 =
      .ok "HS 코드를 찾을 수 없습니다. 4자리 HS 코드를 입력해주세요." ∧
    (process_query_with_real_logging h "HS해설서원문검색" context input
        clock).2.calls = ["get_hs_manager", "extract_hs_codes"] ∧
    ∃ dStart dLoad dDone dTotal : Option String,
      (process_query_with_real_logging h "HS해설서원문검색" context input
          clock).2.logger.events =
        [("INFO", "Query processing started", dStart),
         ("SUCCESS", "HSDataManager loaded", dLoad),
         ("INFO", "Category selected", some "HS해설서원문검색"),
         ("INFO", "Question type mapped", some "hs_manual_raw"),
         ("SEARCH", "Extracting HS codes...", none),
         ("ERROR", "No valid HS codes found in input", none),
         ("SUCCESS", "Answer generation completed", dDone),
         ("INFO", "Process completed successfully", dTotal)] := by
  refine ⟨?_, ?_, ?_⟩ <;>
    simp [process_query_with_real_logging, dispatch_strategy,
      category_mapping, hex]

/-- Witness for C4: the concrete no-codes scenario. -/
theorem C4_raw_no_codes_witness :
    (process_query_with_real_logging okHandlers "HS해설서원문검색" "ctx"
        "노트북" []).1 =
      .ok "HS 코드를 찾을 수 없습니다. 4자리 HS 코드를 입력해주세요." ∧
    (process_query_with_real_logging okHandlers "HS해설서원문검색" "ctx"
        "노트북" []).2.calls = ["get_hs_manager", "extract_hs_codes"] :=
  have h := C4_raw_no_codes okHandlers "ctx" "노트북" []
    (by simp [okHandlers])
  ⟨h.1, h.2.1⟩

/-- C9: when the category is auto and the external classifier returns a
tag outside the five known strategy tags, no dispatch branch assigns
`answer`; evaluating `len(answer)` raises `UnboundLocalError`, which is
logged as two ERROR entries and propagated — no answer string is
returned and no handler is invoked as a fallback (the call trace stops
at the classifier). -/
theorem C9_unknown_auto_tag (h : Handlers) (context input : String)
    (clock : List Nat) (tag : String)
    (hc : h.classify_question input = .ok tag)
    (h1 : tag ≠ "web_search") (h2 : tag ≠ "hs_classification")
    (h3 : tag ≠ "overseas_hs") (h4 : tag ≠ "hs_manual")
    (h5 : tag ≠ "hs_manual_raw") :
    (process_query_with_real_logging h "AI자동분류" context input clock).1 =
      .error unboundLocalAnswer ∧
    unboundLocalAnswer.ename = "UnboundLocalError" ∧
    (process_query_with_real_logging h "AI자동분류" context input
        clock).2.calls = ["get_hs_manager", "classify_question"] ∧
    ∃ dStart dLoad dClass : Option String,
      (process_query_with_real_logging h "AI자동분류" context input
          clock).2.logger.events =
        [("INFO", "Query processing started", dStart),
         ("SUCCESS", "HSDataManager loaded", dLoad),
         ("INFO", "Category selected", some "AI자동분류"),
         ("AI", "Starting LLM question classification...", none),
         ("SUCCESS", "LLM classification completed", dClass),
         ("ERROR",
          "Exception occurred: local variable answer referenced before assignment",
          none),
         ("ERROR", "Error type: UnboundLocalError", none)] := by
  refine ⟨?_, rfl, ?_, ?_⟩ <;>
    simp [process_query_with_real_logging, dispatch_strategy, raiseLogged,
      unboundLocalAnswer, hc, h1, h2, h3, h4, h5]

/-- Witness for C9: concrete query classified to the unknown tag
general_question. -/
theorem C9_unknown_auto_tag_witness :
    (process_query_with_real_logging mysteryHandlers "AI자동분류" "ctx" "q"
        []).1 = .error unboundLocalAnswer ∧
    (process_query_with_real_logging mysteryHandlers "AI자동분류" "ctx" "q"
        []).2.calls = ["get_hs_manager", "classify_question"] :=
  have h := C9_unknown_auto_tag mysteryHandlers "ctx" "q" [] "general_question"
    (by simp [mysteryHandlers, okHandlers]) (by decide) (by decide) (by decide)
    (by decide) (by decide)
  ⟨h.1, h.2.2.1⟩

/-- The two ERROR entries appended by the `except` block. -/
theorem raiseLogged_events (s : PS) (e : Err) :
    (raiseLogged s e).2.logger.events =
      s.logger.events ++
        [("ERROR", "Exception occurred: " ++ e.msg, none),
         ("ERROR", "Error type: " ++ e.ename, none)] := by
  simp [raiseLogged]

/-- C2: for every query whose invoked external collaborator raises —
whether the strategy tag came from the fixed table of an explicit
category or from a successful auto classification — the orchestrator
ends in the `except` block: it appends exactly two ERROR entries (the
failure message, then the failure-kind name) and re-raises the identical
failure; the submit handler then leaves the whole session state —
transcript and context blob — unchanged. -/
theorem C2_handler_failure_propagates (h : Handlers) (s : SessionState)
    (clock : List Nat) (input : String) (e : Err)
    (f : RealTimeProcessLogger → RealTimeProcessLogger) (qt : String)
    (hresolve :
      (s.selected_category ≠ "AI자동분류" ∧
        (category_mapping s.selected_category).getD "hs_classification" =
          qt) ∨
      (s.selected_category = "AI자동분류" ∧
        h.classify_question input = .ok qt))
    (hfail :
      (qt = "web_search" ∧
        h.handle_web_search input s.context = .error e) ∨
      (qt = "hs_classification" ∧
        h.handle_hs_classification_cases input s.context = .error e) ∨
      (qt = "overseas_hs" ∧
        h.handle_overseas_hs input s.context = .error e) ∨
      (qt = "hs_manual" ∧
        ∀ lg, h.handle_hs_manual_with_parallel_search input s.context lg =
          .error (e, f lg)) ∨
      (qt = "hs_manual_raw" ∧
        h.extract_hs_codes input = .error e)) :
    (process_query_with_real_logging h s.selected_category s.context input
        clock).1 = .error e ∧
    (∃ ps0 : PS,
      process_query_with_real_logging h s.selected_category s.context input
          clock = raiseLogged ps0 e ∧
      (raiseLogged ps0 e).2.logger.events =
        ps0.logger.events ++
          [("ERROR", "Exception occurred: " ++ e.msg, none),
           ("ERROR", "Error type: " ++ e.ename, none)]) ∧
    (query_form_submit h s clock input).1 = s := by
  have main :
      (process_query_with_real_logging h s.selected_category s.context input
          clock).1 = .error e ∧
      ∃ ps0 : PS,
        process_query_with_real_logging h s.selected_category s.context input
            clock = raiseLogged ps0 e := by
    rcases hresolve with ⟨hcat, hqt0⟩ | ⟨hcat, hqt0⟩ <;>
      rcases hfail with ⟨hqt, hw⟩ | ⟨hqt, hw⟩ | ⟨hqt, hw⟩ | ⟨hqt, hw⟩ | ⟨hqt, hw⟩ <;>
      subst hqt <;>
      refine ⟨by simp [process_query_with_real_logging, dispatch_strategy,
        raiseLogged, hcat, hqt0, hw], ?_⟩ <;>
      (simp [process_query_with_real_logging, dispatch_strategy, raiseLogged,
        hcat, hqt0, hw]
       exact ⟨_, rfl⟩)
  refine ⟨main.1, ?_, ?_⟩
  · obtain ⟨ps0, hps⟩ := main.2
    exact ⟨ps0, hps, raiseLogged_events ps0 e⟩
  · rcases hP : process_query_with_real_logging h s.selected_category
        s.context input clock with ⟨res, ps⟩
    have hres : res = .error e := by
      have h1 := main.1
      rw [hP] at h1
      exact h1
    by_cases hg : input ≠ "" ∧ input.data.any (fun c => !c.isWhitespace)
    · simp [query_form_submit, hg, hP, hres]
    · simp only [query_form_submit]
      rw [if_neg hg]

/-- Witness for C2: an auto-classified query (classifier resolves to
web_search) whose handler raises a network failure. -/
theorem C2_handler_failure_propagates_witness :
    (process_query_with_real_logging failHandlers "AI자동분류" "ctx" "hi"
        []).1 = .error testErr ∧
    (query_form_submit failHandlers autoFailSession [] "hi").1 =
      autoFailSession :=
  have h := C2_handler_failure_propagates failHandlers autoFailSession []
    "hi" testErr (fun lg => lg) "web_search" (Or.inr ⟨rfl, rfl⟩)
    (Or.inl ⟨rfl, rfl⟩)
  ⟨by simpa [autoFailSession] using h.1, h.2.2⟩

/-- C6: a successful query with user text `input` and answer `answer`
appends exactly the user turn then the assistant turn (transcript length
+2) and extends the context blob with the localized formatted exchange,
strictly increasing its length. -/
theorem C6_append_turn (h : Handlers) (s : SessionState) (clock : List Nat)
    (input answer : String) (ps : PS)
    (hne : input ≠ "" ∧ input.data.any (fun c => !c.isWhitespace))
    (hok : process_query_with_real_logging h s.selected_category s.context
      input clock = (.ok answer, ps)) :
    (query_form_submit h s clock input).1.chat_history =
      s.chat_history ++
        [{ role := "user", content := input },
         { role := "assistant", content := answer }] ∧
    (query_form_submit h s clock input).1.chat_history.length =
      s.chat_history.length + 2 ∧
    (query_form_submit h s clock input).1.context =
      s.context ++ ("\n사용자: " ++ input ++ "\n품목분류 전문가: " ++
        answer ++ "\n") ∧
    s.context.length < (query_form_submit h s clock input).1.context.length := by
  have hstep : (query_form_submit h s clock input).1 =
      { s with
          chat_history := s.chat_history ++
            [{ role := "user", content := input },
             { role := "assistant", content := answer }]
          context := s.context ++ "\n사용자: " ++ input ++
            "\n품목분류 전문가: " ++ answer ++ "\n" } := by
    simp [query_form_submit, hne.1, hne.2, hok]
  rw [hstep]
  refine ⟨rfl, by simp, by simp [String.append_assoc], ?_⟩
  simp [String.length_append]
  have h1 : 0 < "\n사용자: ".length := by decide
  omega

/-- Witness for C6: a concrete successful web-search query. -/
theorem C6_append_turn_witness :
    (query_form_submit okHandlers failSession [] "hi").1.chat_history =
      [{ role := "user", content := "hi" },
       { role := "assistant", content := "\n\n +++ 웹검색 실시 +++\n\nW" }] ∧
    (query_form_submit okHandlers failSession [] "hi").1.chat_history.length =
      2 :=
  have h := C6_append_turn okHandlers failSession [] "hi"
    "\n\n +++ 웹검색 실시 +++\n\nW"
    (process_query_with_real_logging okHandlers "웹검색" "ctx" "hi" []).2
    ⟨by decide, by decide⟩ (by rfl)
  ⟨by simpa [failSession] using h.1, by simpa [failSession] using h.2.1⟩

theorem pairsToTurns_append (xs ys : List (String × String)) :
    pairsToTurns (xs ++ ys) = pairsToTurns xs ++ pairsToTurns ys := by
  induction xs with
  | nil => rfl
  | cons p rest ih =>
    rcases p with ⟨u, a⟩
    simp [pairsToTurns, ih]

theorem wellPaired_append_pair (l : List Turn) (hl : WellPaired l)
    (u a : String) :
    WellPaired (l ++
      [{ role := "user", content := u },
       { role := "assistant", content := a }]) := by
  obtain ⟨ps, hps⟩ := hl
  exact ⟨ps ++ [(u, a)], by simp [hps, pairsToTurns_append, pairsToTurns]⟩

theorem pairsToTurns_length (ps : List (String × String)) :
    (pairsToTurns ps).length = 2 * ps.length := by
  induction ps with
  | nil => rfl
  | cons p rest ih =>
    rcases p with ⟨u, a⟩
    simp [pairsToTurns, ih]
    omega

theorem pairsToTurns_role (ps : List (String × String)) (i : Nat)
    (hi : i < (pairsToTurns ps).length) :
    ((pairsToTurns ps).get ⟨i, hi⟩).role =
      if i % 2 = 0 then "user" else "assistant" := by
  induction ps generalizing i with
  | nil => simp [pairsToTurns] at hi
  | cons p rest ih =>
    rcases p with ⟨u, a⟩
    match i with
    | 0 => rfl
    | 1 => rfl
    | n + 2 =>
      have hn : n < (pairsToTurns rest).length := by
        simpa [pairsToTurns] using hi
      have := ih n hn
      simpa [pairsToTurns, Nat.add_mod_right] using this

/-- C10: the transcript invariant — even length, strict user/assistant
alternation, assistant paired with the immediately preceding user turn —
holds initially, is preserved by the reset button and by the submit
handler, and the submit handler only ever extends the existing
transcript (no reorder, no unpaired insertion). -/
theorem C10_transcript_invariant (h : Handlers) (s : SessionState)
    (clock : List Nat) (input : String) (hs : WellPaired s.chat_history) :
    WellPaired initSession.chat_history ∧
    WellPaired (resetChat s).chat_history ∧
    WellPaired (query_form_submit h s clock input).1.chat_history ∧
    (∃ t, (query_form_submit h s clock input).1.chat_history =
      s.chat_history ++ t) ∧
    (query_form_submit h s clock input).1.chat_history.length % 2 = 0 ∧
    ∀ i (hi : i <
        (query_form_submit h s clock input).1.chat_history.length),
      ((query_form_submit h s clock input).1.chat_history.get ⟨i, hi⟩).role =
        if i % 2 = 0 then "user" else "assistant" := by
  have hcases :
      (query_form_submit h s clock input).1.chat_history = s.chat_history ∨
      ∃ a, (query_form_submit h s clock input).1.chat_history =
        s.chat_history ++
          [{ role := "user", content := input },
           { role := "assistant", content := a }] := by
    by_cases hg : input ≠ "" ∧ input.data.any (fun c => !c.isWhitespace)
    · rcases hP : process_query_with_real_logging h s.selected_category
          s.context input clock with ⟨res, ps⟩
      cases res with
      | ok a =>
        right
        exact ⟨a, by simp [query_form_submit, hg, hP]⟩
      | error e =>
        left
        simp [query_form_submit, hg, hP]
    · left
      simp only [query_form_submit]
      rw [if_neg hg]
  have hwp : WellPaired (query_form_submit h s clock input).1.chat_history := by
    rcases hcases with hc | ⟨a, hc⟩
    · rw [hc]; exact hs
    · rw [hc]; exact wellPaired_append_pair _ hs input a
  obtain ⟨ps', hps'⟩ := hwp
  refine ⟨⟨[], rfl⟩, ⟨[], rfl⟩, ⟨ps', hps'⟩, ?_, ?_, ?_⟩
  · rcases hcases with hc | ⟨a, hc⟩
    · exact ⟨[], by simp [hc]⟩
    · exact ⟨_, hc⟩
  · rw [hps', pairsToTurns_length]
    omega
  · intro i hi
    have hg2 := List.get_of_eq hps' ⟨i, hi⟩
    rw [hg2]
    exact pairsToTurns_role ps' i _

/-- Witness for C10: the invariant after one successful query from the
initial session. -/
theorem C10_transcript_invariant_witness :
    WellPaired (query_form_submit okHandlers initSession [] "hi").1.chat_history ∧
    (query_form_submit okHandlers initSession []
        "hi").1.chat_history.length % 2 = 0 :=
  have h := C10_transcript_invariant okHandlers initSession [] "hi" ⟨[], rfl⟩
  ⟨h.2.2.1, h.2.2.2.2.1⟩
